import Mathlib

/-!
# Stepper-motor GPIO driver (`src/gpio.c`)

A shallow embedding of `setup_gpio`, `set_position_gpio` and `main`.

The libgpiod calls are external: their outcomes are supplied by a `Provider`
(what every fallible call answers), and every call the program makes is
appended, with its arguments and its answer, to a log.  Pointers are modelled as
`Option Ptr`, `none` being `NULL`.  A run that would read outside the bounds of
the `values` array has no defined behaviour in C; it is modelled as `none`.
-/

namespace Gpio

/-- A non-null pointer returned by the library. -/
abbrev Ptr := Nat

/-- The two values of `enum gpiod_line_value` the program uses. -/
inductive gpiod_line_value where
  | INACTIVE
  | ACTIVE
  deriving DecidableEq, Repr

/-- Every external call the program makes, with its arguments and, for a call
whose result the library decides, that result. -/
inductive Call where
  | gpiod_chip_open (path : String) (ret : Option Ptr)
  | gpiod_line_settings_new (ret : Option Ptr)
  | gpiod_line_settings_set_direction_output (line_set : Ptr)
  | gpiod_line_config_new (ret : Option Ptr)
  | gpiod_line_config_add_line_settings (line_cfg : Ptr) (offset : Nat)
      (num_offsets : Nat) (line_set : Ptr) (ret : Int)
  | gpiod_request_config_new (ret : Option Ptr)
  | gpiod_request_config_set_consumer (req_cfg : Ptr) (consumer : String)
  | gpiod_chip_request_lines (chip req_cfg line_cfg : Ptr) (ret : Option Ptr)
  | gpiod_request_config_free (req_cfg : Ptr)
  | gpiod_line_config_free (line_cfg : Ptr)
  | gpiod_line_settings_free (line_set : Ptr)
  | gpiod_chip_close (chip : Ptr)
  | gpiod_line_request_set_values (gpio : Ptr) (vals : List gpiod_line_value) (ret : Int)
  | gpiod_line_request_release (gpio : Ptr)
  | usleep (usec : Nat)
  | perror (msg : String)
  deriving DecidableEq, Repr

/-- The answers of the digital I/O library: one per fallible call.  The answer
to a line binding is keyed by the offset being bound, the answer to a value
write by the number of value writes made before it. -/
structure Provider where
  chip_open : Option Ptr
  line_settings_new : Option Ptr
  line_config_new : Option Ptr
  add_line_settings : Nat → Int
  request_config_new : Option Ptr
  chip_request_lines : Option Ptr
  set_values : Nat → Int

/-- The `CONSUMER` preprocessor constant. -/
def CONSUMER : String := "Rotating Table"

/-- The local `chipname` of `setup_gpio`. -/
def chipname : String := "/dev/gpiochip0"

/-- The local `line_numbers` of `setup_gpio`. -/
def line_numbers : List Nat := [27, 22, 23, 24]

/-- Label `complete_failure:` of `setup_gpio`: `return line_req`. -/
def complete_failure (line_req : Option Ptr) (log : List Call) : Option Ptr × List Call :=
  (line_req, log)

/-- Label `close_chip:` of `setup_gpio`, falling through to `complete_failure`. -/
def close_chip (chip : Ptr) (line_req : Option Ptr) (log : List Call) :
    Option Ptr × List Call :=
  complete_failure line_req (log ++ [Call.gpiod_chip_close chip])

/-- Label `close_line_set:` of `setup_gpio`, falling through to `close_chip`. -/
def close_line_set (line_set chip : Ptr) (line_req : Option Ptr) (log : List Call) :
    Option Ptr × List Call :=
  close_chip chip line_req (log ++ [Call.gpiod_line_settings_free line_set])

/-- Label `close_line_cfg:` of `setup_gpio`, falling through to `close_line_set`. -/
def close_line_cfg (line_cfg line_set chip : Ptr) (line_req : Option Ptr) (log : List Call) :
    Option Ptr × List Call :=
  close_line_set line_set chip line_req (log ++ [Call.gpiod_line_config_free line_cfg])

/-- The loop `for(size_t i = 0; i < 4; i++)` of `setup_gpio`, entered at index
`i` with `rem = 4 - i` iterations left.  The result is `false` when an iteration
took the `goto close_line_cfg`, `true` when the loop ran to its end. -/
def bind_loop (p : Provider) (line_cfg line_set : Ptr) :
    Nat → Nat → List Call → Bool × List Call
  | _, 0, log => (true, log)
  | i, rem + 1, log =>
    let offset := line_numbers.getD i 0
    let ret := p.add_line_settings offset
    let log := log ++ [Call.gpiod_line_config_add_line_settings line_cfg offset 1 line_set ret]
    if ret ≠ 0 then
      (false, log ++ [Call.perror "Unable to set line"])
    else
      bind_loop p line_cfg line_set (i + 1) rem log

/-- The function `setup_gpio`: the returned `line_req` and the log of the calls made. -/
def setup_gpio (p : Provider) : Option Ptr × List Call :=
  let line_req : Option Ptr := none
  let log := [Call.gpiod_chip_open chipname p.chip_open]
  match p.chip_open with
  | none => complete_failure line_req (log ++ [Call.perror "Open chip failed\n"])
  | some chip =>
    let log := log ++ [Call.gpiod_line_settings_new p.line_settings_new]
    match p.line_settings_new with
    | none => close_chip chip line_req (log ++ [Call.perror "Unable to create line settings"])
    | some line_set =>
      let log := log ++ [Call.gpiod_line_settings_set_direction_output line_set]
      let log := log ++ [Call.gpiod_line_config_new p.line_config_new]
      match p.line_config_new with
      | none =>
        close_line_set line_set chip line_req
          (log ++ [Call.perror "Failed to allocate line config\n"])
      | some line_cfg =>
        match bind_loop p line_cfg line_set 0 4 log with
        | (false, log) => close_line_cfg line_cfg line_set chip line_req log
        | (true, log) =>
          let log := log ++ [Call.gpiod_request_config_new p.request_config_new]
          match p.request_config_new with
          | none => close_line_cfg line_cfg line_set chip line_req log
          | some req_cfg =>
            let log := log ++ [Call.gpiod_request_config_set_consumer req_cfg CONSUMER]
            let line_req := p.chip_request_lines
            let log := log ++ [Call.gpiod_chip_request_lines chip req_cfg line_cfg line_req]
            let log := log ++ [Call.gpiod_request_config_free req_cfg]
            close_line_cfg line_cfg line_set chip line_req log

/-- The local array `values[8][4]` of `set_position_gpio`. -/
def values : List (List gpiod_line_value) :=
  open gpiod_line_value in
  [ [INACTIVE, INACTIVE, INACTIVE, ACTIVE],
    [INACTIVE, INACTIVE, ACTIVE, ACTIVE],
    [INACTIVE, INACTIVE, ACTIVE, INACTIVE],
    [INACTIVE, ACTIVE, ACTIVE, INACTIVE],
    [INACTIVE, ACTIVE, INACTIVE, INACTIVE],
    [ACTIVE, ACTIVE, INACTIVE, INACTIVE],
    [ACTIVE, INACTIVE, INACTIVE, INACTIVE],
    [ACTIVE, INACTIVE, INACTIVE, ACTIVE] ]

/-- The expression `values[position%8]` of `set_position_gpio`.  C's `%` on
`int` truncates toward zero (`Int.tmod`); an index outside the array is `none`. -/
def values_at (position : Int) : Option (List gpiod_line_value) :=
  let idx := Int.tmod position 8
  if idx < 0 then none else values[idx.toNat]?

/-- The state the driving code threads through: the log of calls and the number
of `gpiod_line_request_set_values` calls made so far. -/
structure World where
  log : List Call
  writes : Nat
  deriving DecidableEq, Repr

/-- The function `set_position_gpio`.  The value `gpiod_line_request_set_values`
returns is discarded; the function returns `void`. -/
def set_position_gpio (p : Provider) (gpio : Ptr) (position : Int) (w : World) :
    Option World :=
  match values_at position with
  | none => none
  | some row =>
    some { log := w.log ++ [Call.gpiod_line_request_set_values gpio row (p.set_values w.writes)],
           writes := w.writes + 1 }

/-- Conversion of the `size_t` loop index to the 32-bit `int` parameter
`position` at the call `set_position_gpio(gpio, i)`: a value up to `INT_MAX` is
unchanged; above it the result is reduced modulo `2 ^ 32` into the range of
`int`, as GCC and Clang define the conversion. -/
def size_t_to_int (i : Nat) : Int :=
  let m : Nat := i % 2 ^ 32
  if m < 2 ^ 31 then (m : Int) else (m : Int) - 2 ^ 32

/-- The loop `for(size_t i = 0; i < N; i++)` of `main`, with the bound `N` a
parameter, entered at index `i` with `rem = N - i` iterations left. -/
def drive_loop (p : Provider) (gpio : Ptr) : Nat → Nat → World → Option World
  | _, 0, w => some w
  | i, rem + 1, w =>
    match set_position_gpio p gpio (size_t_to_int i) w with
    | none => none
    | some w1 =>
      drive_loop p gpio (i + 1) rem { w1 with log := w1.log ++ [Call.usleep 2000] }

/-- The function `main` with the loop bound a parameter: exit status and log. -/
def main_bound (N : Nat) (p : Provider) : Option (Int × List Call) :=
  match setup_gpio p with
  | (none, log) => some (-1, log)
  | (some gpio, log) =>
    match drive_loop p gpio 0 N { log := log, writes := 0 } with
    | none => none
    | some w => some (0, w.log ++ [Call.gpiod_line_request_release gpio])

/-- The function `main`: the loop bound is 4096. -/
def main (p : Provider) : Option (Int × List Call) :=
  main_bound 4096 p

/-! ## Specification-side definitions and observations on the log -/

/-- The step table as the specification prints it, rows 0 to 7, columns
`[A, B, C, D]`, `1` active and `0` inactive. -/
def spec_table : List (List Nat) :=
  [ [0, 0, 0, 1],
    [0, 0, 1, 1],
    [0, 0, 1, 0],
    [0, 1, 1, 0],
    [0, 1, 0, 0],
    [1, 1, 0, 0],
    [1, 0, 0, 0],
    [1, 0, 0, 1] ]

/-- Reading of a table entry: `1` is `ACTIVE`, `0` is `INACTIVE`. -/
def line_value_of (b : Nat) : gpiod_line_value :=
  if b = 1 then gpiod_line_value.ACTIVE else gpiod_line_value.INACTIVE

/-- Row `i` of the specification's step table as line values. -/
def spec_row (i : Nat) : List gpiod_line_value :=
  (spec_table.getD i []).map line_value_of

/-- Number of positions at which two patterns differ. -/
def differing_positions (a b : List gpiod_line_value) : Nat :=
  ((a.zip b).filter (fun x => decide (x.1 ≠ x.2))).length

/-- The sub-resources the library hands out. -/
inductive Res where
  | chip (h : Ptr)
  | line_settings (h : Ptr)
  | line_config (h : Ptr)
  | request_config (h : Ptr)
  | line_request (h : Ptr)
  deriving DecidableEq, Repr

/-- The resource a call creates, when it succeeds in creating one. -/
def Call.acquires : Call → Option Res
  | Call.gpiod_chip_open _ (some h) => some (Res.chip h)
  | Call.gpiod_line_settings_new (some h) => some (Res.line_settings h)
  | Call.gpiod_line_config_new (some h) => some (Res.line_config h)
  | Call.gpiod_request_config_new (some h) => some (Res.request_config h)
  | Call.gpiod_chip_request_lines _ _ _ (some h) => some (Res.line_request h)
  | _ => none

/-- The resource a call releases. -/
def Call.releases : Call → Option Res
  | Call.gpiod_chip_close h => some (Res.chip h)
  | Call.gpiod_line_settings_free h => some (Res.line_settings h)
  | Call.gpiod_line_config_free h => some (Res.line_config h)
  | Call.gpiod_request_config_free h => some (Res.request_config h)
  | Call.gpiod_line_request_release h => some (Res.line_request h)
  | _ => none

/-- The resources created along a log, in order of creation. -/
def acquired (log : List Call) : List Res := log.filterMap Call.acquires

/-- The resources released along a log, in order of release. -/
def released (log : List Call) : List Res := log.filterMap Call.releases

/-- A resource-tracking run over a log from a set of live resources: a creation
adds the resource, a release removes it, and releasing a resource that is not
live (a double release) makes the run fail with `none`. -/
def track : List Res → List Call → Option (List Res)
  | live, [] => some live
  | live, c :: cs =>
    match c.acquires, c.releases with
    | some r, _ => track (r :: live) cs
    | none, some r => if r ∈ live then track (live.erase r) cs else none
    | none, none => track live cs

/-- The sub-resources of `setup_gpio` other than the returned line request. -/
def Res.is_sub_resource : Res → Bool
  | Res.line_request _ => false
  | _ => true

/-- The kinds of resources, for stating orders without naming handles. -/
inductive Kind where
  | chip
  | line_settings
  | line_config
  | request_config
  | line_request
  deriving DecidableEq, Repr

/-- The kind of a resource. -/
def Res.kind : Res → Kind
  | Res.chip _ => Kind.chip
  | Res.line_settings _ => Kind.line_settings
  | Res.line_config _ => Kind.line_config
  | Res.request_config _ => Kind.request_config
  | Res.line_request _ => Kind.line_request

/-- The stages of `setup_gpio` at which the library can fail. -/
inductive Stage where
  | chip_open
  | line_settings_new
  | line_config_new
  | add_line_settings (j : Fin 4)
  | request_config_new
  | chip_request_lines
  deriving DecidableEq, Repr

/-- The bindings of indices `0 .. n-1` succeed. -/
def binds_ok (p : Provider) (n : Nat) : Prop :=
  ∀ i, i < n → p.add_line_settings (line_numbers.getD i 0) = 0

/-- The run of `setup_gpio` against `p` reaches the stage and the stage fails:
every earlier stage succeeds and this one does not. -/
def fails_at (p : Provider) : Stage → Prop
  | Stage.chip_open => p.chip_open = none
  | Stage.line_settings_new => p.chip_open ≠ none ∧ p.line_settings_new = none
  | Stage.line_config_new =>
    p.chip_open ≠ none ∧ p.line_settings_new ≠ none ∧ p.line_config_new = none
  | Stage.add_line_settings j =>
    p.chip_open ≠ none ∧ p.line_settings_new ≠ none ∧ p.line_config_new ≠ none ∧
      binds_ok p j.val ∧ p.add_line_settings (line_numbers.getD j.val 0) ≠ 0
  | Stage.request_config_new =>
    p.chip_open ≠ none ∧ p.line_settings_new ≠ none ∧ p.line_config_new ≠ none ∧
      binds_ok p 4 ∧ p.request_config_new = none
  | Stage.chip_request_lines =>
    p.chip_open ≠ none ∧ p.line_settings_new ≠ none ∧ p.line_config_new ≠ none ∧
      binds_ok p 4 ∧ p.request_config_new ≠ none ∧ p.chip_request_lines = none

/-- Every stage before the final line request succeeds, so the run reaches
`gpiod_chip_request_lines`. -/
def reaches_request (p : Provider) : Prop :=
  p.chip_open ≠ none ∧ p.line_settings_new ≠ none ∧ p.line_config_new ≠ none ∧
    binds_ok p 4 ∧ p.request_config_new ≠ none

/-- The line bindings attempted along a log: offset and number of offsets of
each `gpiod_line_config_add_line_settings` call, in order. -/
def bind_attempts (log : List Call) : List (Nat × Nat) :=
  log.filterMap fun c =>
    match c with
    | Call.gpiod_line_config_add_line_settings _ offset num _ _ => some (offset, num)
    | _ => none

/-- Whether a call is an attempt at allocating the request config or at
requesting the lines. -/
def Call.is_request_stage : Call → Bool
  | Call.gpiod_request_config_new _ => true
  | Call.gpiod_chip_request_lines _ _ _ _ => true
  | _ => false

/-- The value writes attempted along a log: pattern and returned status of each
`gpiod_line_request_set_values` call, in order. -/
def write_attempts (log : List Call) : List (List gpiod_line_value × Int) :=
  log.filterMap fun c =>
    match c with
    | Call.gpiod_line_request_set_values _ vals ret => some (vals, ret)
    | _ => none

/-- The value writes along a log that the library reported as successful. -/
def successful_writes (log : List Call) : List (List gpiod_line_value × Int) :=
  (write_attempts log).filter fun a => decide (a.2 = 0)

/-- The two calls of one iteration of the driving loop at index `k`. -/
def step_calls (p : Provider) (gpio : Ptr) (k : Nat) : List Call :=
  [Call.gpiod_line_request_set_values gpio (spec_row (k % 8)) (p.set_values k),
   Call.usleep 2000]

/-- The binding calls of indices `0 .. n-1` made on `line_cfg` with `line_set`,
each for one offset, with the answers of the library. -/
def bind_calls (p : Provider) (line_cfg line_set : Ptr) (n : Nat) : List Call :=
  (line_numbers.take n).map fun offset =>
    Call.gpiod_line_config_add_line_settings line_cfg offset 1 line_set
      (p.add_line_settings offset)

/-- The calls of `setup_gpio` up to the allocation of the line config, when the
chip, the line settings and the line config are obtained. -/
def config_calls (chip line_set line_cfg : Ptr) : List Call :=
  [Call.gpiod_chip_open chipname (some chip),
   Call.gpiod_line_settings_new (some line_set),
   Call.gpiod_line_settings_set_direction_output line_set,
   Call.gpiod_line_config_new (some line_cfg)]

/-! ## Concrete providers -/

/-- A library in which every call succeeds. -/
def provider_ok : Provider :=
  { chip_open := some 1, line_settings_new := some 2, line_config_new := some 3,
    add_line_settings := fun _ => 0, request_config_new := some 4,
    chip_request_lines := some 5, set_values := fun _ => 0 }

/-- A library whose chip cannot be opened. -/
def provider_no_chip : Provider :=
  { provider_ok with chip_open := none }

/-- A library that refuses the binding of offset 23 (index 2). -/
def provider_bind_fails : Provider :=
  { provider_ok with add_line_settings := fun offset => if offset = 23 then -1 else 0 }

/-- A library that refuses the final line request. -/
def provider_no_request : Provider :=
  { provider_ok with chip_request_lines := none }

/-- A library whose third value write (ordinal 2) fails. -/
def provider_third_write_fails : Provider :=
  { provider_ok with set_values := fun k => if k = 2 then -1 else 0 }

/-! ## The step table -/

/-- Every row of the array in the code is the row of the specification's table. -/
theorem values_eq_spec_row : ∀ i : Fin 8, values[i.val]? = some (spec_row i.val) := by
  decide

/-- For a position that is not negative the subscript is `position mod 8`, inside the array. -/
theorem values_at_natCast (n : Nat) : values_at (n : Int) = some (spec_row (n % 8)) := by
  have h : Int.tmod (n : Int) 8 = ((n % 8 : Nat) : Int) := (Int.ofNat_tmod n 8).symm
  have hlt : n % 8 < 8 := Nat.mod_lt n (by decide)
  have hrow := values_eq_spec_row ⟨n % 8, hlt⟩
  unfold values_at
  simp only [h]
  have hneg : ¬ (((n % 8 : Nat) : Int) < 0) := by omega
  simp only [hneg, if_false, Int.toNat_ofNat]
  exact hrow

/-- A loop index below `2 ^ 31` converts to the same number as an `int`. -/
theorem size_t_to_int_of_lt (i : Nat) (h : i < 2 ^ 31) : size_t_to_int i = (i : Int) := by
  unfold size_t_to_int
  have h1 : i % 2 ^ 32 = i := Nat.mod_eq_of_lt (by omega)
  simp only [h1]
  rw [if_pos h]

/-- C1: at position `-1` the subscript `position%8` of `set_position_gpio` is
`-1`, outside `0..7`, so the read is outside the table and no row is selected
(whatever the library and the state), whereas position `7` selects row 7 of the
table; the pattern for `-1` is not the pattern for `7`. -/
theorem set_position_gpio_minus_one :
    Int.tmod (-1) 8 = -1 ∧ values_at (-1) = none ∧
      (∀ (p : Provider) (gpio : Ptr) (w : World), set_position_gpio p gpio (-1) w = none) ∧
      values_at 7 = some (spec_row 7) ∧ values_at (-1) ≠ values_at 7 := by
  refine ⟨by decide, by decide, ?_, by decide, by decide⟩
  intro p gpio w
  have h : values_at (-1) = none := by decide
  simp only [set_position_gpio, h]

/-- C2: for every index `i` in `0..7`, `set_position_gpio` at position `i` makes
one write whose pattern is row `i` of the specification's step table in
`[A,B,C,D]` order, the table being the eight rows listed; the pattern for 8 is
the pattern for 0 and the pattern for 15 is the pattern for 7, `[1,0,0,1]`. -/
theorem set_position_gpio_writes_spec_row :
    (∀ (i : Fin 8) (p : Provider) (gpio : Ptr) (w : World),
      set_position_gpio p gpio (i.val : Int) w =
        some { log := w.log ++
                 [Call.gpiod_line_request_set_values gpio (spec_row i.val) (p.set_values w.writes)],
               writes := w.writes + 1 }) ∧
      (∀ i : Fin 8, values_at (i.val : Int) = some (spec_row i.val)) ∧
      (List.range 8).map spec_row =
        [ [.INACTIVE, .INACTIVE, .INACTIVE, .ACTIVE],
          [.INACTIVE, .INACTIVE, .ACTIVE, .ACTIVE],
          [.INACTIVE, .INACTIVE, .ACTIVE, .INACTIVE],
          [.INACTIVE, .ACTIVE, .ACTIVE, .INACTIVE],
          [.INACTIVE, .ACTIVE, .INACTIVE, .INACTIVE],
          [.ACTIVE, .ACTIVE, .INACTIVE, .INACTIVE],
          [.ACTIVE, .INACTIVE, .INACTIVE, .INACTIVE],
          [.ACTIVE, .INACTIVE, .INACTIVE, .ACTIVE] ] ∧
      values_at 8 = values_at 0 ∧ values_at 15 = values_at 7 ∧
      values_at 7 = some [.ACTIVE, .INACTIVE, .INACTIVE, .ACTIVE] ∧
      values_at 0 = some [.INACTIVE, .INACTIVE, .INACTIVE, .ACTIVE] := by
  have hrow : ∀ i : Fin 8, values_at (i.val : Int) = some (spec_row i.val) := by
    intro i
    have h := values_at_natCast i.val
    rwa [Nat.mod_eq_of_lt i.isLt] at h
  refine ⟨?_, hrow, by decide, by decide, by decide, by decide, by decide⟩
  intro i p gpio w
  simp only [set_position_gpio, hrow i]

/-- C10: the table of `set_position_gpio` has eight rows of four values, and for
every index `i` in `0..7` row `i` and row `(i+1) mod 8` differ in exactly one
position; at the wrap, row 7 is `[1,0,0,1]`, row 0 is `[0,0,0,1]`, and they differ
in line A only. -/
theorem values_single_line_change :
    values.length = 8 ∧ (∀ row ∈ values, row.length = 4) ∧
      (∀ i : Fin 8,
        differing_positions (values.getD i.val []) (values.getD ((i.val + 1) % 8) []) = 1) ∧
      values.getD 7 [] = [.ACTIVE, .INACTIVE, .INACTIVE, .ACTIVE] ∧
      values.getD 0 [] = [.INACTIVE, .INACTIVE, .INACTIVE, .ACTIVE] ∧
      (values.getD 7 []).head? ≠ (values.getD 0 []).head? ∧
      (values.getD 7 []).tail = (values.getD 0 []).tail := by
  refine ⟨by decide, by decide, by decide, by decide, by decide, by decide, by decide⟩

/-! ## The paths of `setup_gpio` -/

theorem binds_ok_zero (p : Provider) : binds_ok p 0 := by
  intro i hi
  omega

theorem binds_ok_succ (p : Provider) (n : Nat) :
    binds_ok p (n + 1) ↔ binds_ok p n ∧ p.add_line_settings (line_numbers.getD n 0) = 0 := by
  constructor
  · intro h
    exact ⟨fun i hi => h i (by omega), h n (by omega)⟩
  · rintro ⟨h, hn⟩ i hi
    rcases Nat.lt_succ_iff_lt_or_eq.mp hi with hlt | rfl
    · exact h i hlt
    · exact hn

theorem binds_ok_four (p : Provider) :
    binds_ok p 4 ↔ p.add_line_settings 27 = 0 ∧ p.add_line_settings 22 = 0 ∧
      p.add_line_settings 23 = 0 ∧ p.add_line_settings 24 = 0 := by
  simp [binds_ok_succ, binds_ok_zero, line_numbers, and_assoc]

/-- Path: the chip cannot be opened. -/
theorem setup_gpio_fails_chip_open (p : Provider) (h : fails_at p Stage.chip_open) :
    setup_gpio p =
      (none, [Call.gpiod_chip_open chipname none, Call.perror "Open chip failed\n"]) := by
  simp only [fails_at] at h
  simp [setup_gpio, h, complete_failure]

/-- Path: the line settings cannot be allocated. -/
theorem setup_gpio_fails_line_settings (p : Provider)
    (h : fails_at p Stage.line_settings_new) :
    ∃ c, p.chip_open = some c ∧ setup_gpio p =
      (none, [Call.gpiod_chip_open chipname (some c), Call.gpiod_line_settings_new none,
              Call.perror "Unable to create line settings", Call.gpiod_chip_close c]) := by
  obtain ⟨hc, hs⟩ := h
  obtain ⟨c, hc⟩ := Option.ne_none_iff_exists'.mp hc
  exact ⟨c, hc, by simp [setup_gpio, hc, hs, complete_failure, close_chip]⟩

/-- Path: the line config cannot be allocated. -/
theorem setup_gpio_fails_line_config (p : Provider)
    (h : fails_at p Stage.line_config_new) :
    ∃ c s, p.chip_open = some c ∧ p.line_settings_new = some s ∧ setup_gpio p =
      (none, [Call.gpiod_chip_open chipname (some c), Call.gpiod_line_settings_new (some s),
              Call.gpiod_line_settings_set_direction_output s, Call.gpiod_line_config_new none,
              Call.perror "Failed to allocate line config\n",
              Call.gpiod_line_settings_free s, Call.gpiod_chip_close c]) := by
  obtain ⟨hc, hs, hl⟩ := h
  obtain ⟨c, hc⟩ := Option.ne_none_iff_exists'.mp hc
  obtain ⟨s, hs⟩ := Option.ne_none_iff_exists'.mp hs
  exact ⟨c, s, hc, hs,
    by simp [setup_gpio, hc, hs, hl, complete_failure, close_chip, close_line_set]⟩

/-- Path: the binding of index `j` is the first to fail. -/
theorem setup_gpio_fails_bind (p : Provider) (j : Fin 4)
    (h : fails_at p (Stage.add_line_settings j)) :
    ∃ c s l, p.chip_open = some c ∧ p.line_settings_new = some s ∧
      p.line_config_new = some l ∧ setup_gpio p =
      (none, config_calls c s l ++ bind_calls p l s (j.val + 1) ++
        [Call.perror "Unable to set line", Call.gpiod_line_config_free l,
         Call.gpiod_line_settings_free s, Call.gpiod_chip_close c]) := by
  obtain ⟨hc, hs, hl, hok, hf⟩ := h
  obtain ⟨c, hc⟩ := Option.ne_none_iff_exists'.mp hc
  obtain ⟨s, hs⟩ := Option.ne_none_iff_exists'.mp hs
  obtain ⟨l, hl⟩ := Option.ne_none_iff_exists'.mp hl
  refine ⟨c, s, l, hc, hs, hl, ?_⟩
  fin_cases j <;>
    simp [binds_ok_succ, binds_ok_zero, line_numbers] at hok hf <;>
    simp [setup_gpio, bind_loop, hc, hs, hl, hok, hf, complete_failure, close_chip,
      close_line_set, close_line_cfg, config_calls, bind_calls, line_numbers]

/-- Path: the request config cannot be allocated. -/
theorem setup_gpio_fails_request_config (p : Provider)
    (h : fails_at p Stage.request_config_new) :
    ∃ c s l, p.chip_open = some c ∧ p.line_settings_new = some s ∧
      p.line_config_new = some l ∧ setup_gpio p =
      (none, config_calls c s l ++ bind_calls p l s 4 ++
        [Call.gpiod_request_config_new none, Call.gpiod_line_config_free l,
         Call.gpiod_line_settings_free s, Call.gpiod_chip_close c]) := by
  obtain ⟨hc, hs, hl, hok, hq⟩ := h
  obtain ⟨c, hc⟩ := Option.ne_none_iff_exists'.mp hc
  obtain ⟨s, hs⟩ := Option.ne_none_iff_exists'.mp hs
  obtain ⟨l, hl⟩ := Option.ne_none_iff_exists'.mp hl
  refine ⟨c, s, l, hc, hs, hl, ?_⟩
  rw [binds_ok_four] at hok
  obtain ⟨h0, h1, h2, h3⟩ := hok
  simp [setup_gpio, bind_loop, hc, hs, hl, hq, h0, h1, h2, h3, complete_failure, close_chip,
    close_line_set, close_line_cfg, config_calls, bind_calls, line_numbers]

/-- Path: the run reaches the final line request; whatever it answers is returned. -/
theorem setup_gpio_reaches_request (p : Provider) (h : reaches_request p) :
    ∃ c s l q, p.chip_open = some c ∧ p.line_settings_new = some s ∧
      p.line_config_new = some l ∧ p.request_config_new = some q ∧ setup_gpio p =
      (p.chip_request_lines, config_calls c s l ++ bind_calls p l s 4 ++
        [Call.gpiod_request_config_new (some q),
         Call.gpiod_request_config_set_consumer q CONSUMER,
         Call.gpiod_chip_request_lines c q l p.chip_request_lines,
         Call.gpiod_request_config_free q, Call.gpiod_line_config_free l,
         Call.gpiod_line_settings_free s, Call.gpiod_chip_close c]) := by
  obtain ⟨hc, hs, hl, hok, hq⟩ := h
  obtain ⟨c, hc⟩ := Option.ne_none_iff_exists'.mp hc
  obtain ⟨s, hs⟩ := Option.ne_none_iff_exists'.mp hs
  obtain ⟨l, hl⟩ := Option.ne_none_iff_exists'.mp hl
  obtain ⟨q, hq⟩ := Option.ne_none_iff_exists'.mp hq
  refine ⟨c, s, l, q, hc, hs, hl, hq, ?_⟩
  rw [binds_ok_four] at hok
  obtain ⟨h0, h1, h2, h3⟩ := hok
  simp [setup_gpio, bind_loop, hc, hs, hl, hq, h0, h1, h2, h3, complete_failure, close_chip,
    close_line_set, close_line_cfg, config_calls, bind_calls, line_numbers]

/-- Every run either reaches the final line request or fails at an earlier stage. -/
theorem stage_cases (p : Provider) :
    reaches_request p ∨ fails_at p Stage.chip_open ∨ fails_at p Stage.line_settings_new ∨
      fails_at p Stage.line_config_new ∨ (∃ j, fails_at p (Stage.add_line_settings j)) ∨
      fails_at p Stage.request_config_new := by
  by_cases hc : p.chip_open = none
  · exact Or.inr (Or.inl hc)
  by_cases hs : p.line_settings_new = none
  · exact Or.inr (Or.inr (Or.inl ⟨hc, hs⟩))
  by_cases hl : p.line_config_new = none
  · exact Or.inr (Or.inr (Or.inr (Or.inl ⟨hc, hs, hl⟩)))
  by_cases h0 : p.add_line_settings (line_numbers.getD 0 0) = 0
  · have ok1 : binds_ok p 1 := (binds_ok_succ p 0).mpr ⟨binds_ok_zero p, h0⟩
    by_cases h1 : p.add_line_settings (line_numbers.getD 1 0) = 0
    · have ok2 : binds_ok p 2 := (binds_ok_succ p 1).mpr ⟨ok1, h1⟩
      by_cases h2 : p.add_line_settings (line_numbers.getD 2 0) = 0
      · have ok3 : binds_ok p 3 := (binds_ok_succ p 2).mpr ⟨ok2, h2⟩
        by_cases h3 : p.add_line_settings (line_numbers.getD 3 0) = 0
        · have ok4 : binds_ok p 4 := (binds_ok_succ p 3).mpr ⟨ok3, h3⟩
          by_cases hq : p.request_config_new = none
          · exact Or.inr (Or.inr (Or.inr (Or.inr (Or.inr ⟨hc, hs, hl, ok4, hq⟩))))
          · exact Or.inl ⟨hc, hs, hl, ok4, hq⟩
        · exact Or.inr (Or.inr (Or.inr (Or.inr (Or.inl ⟨3, hc, hs, hl, ok3, h3⟩))))
      · exact Or.inr (Or.inr (Or.inr (Or.inr (Or.inl ⟨2, hc, hs, hl, ok2, h2⟩))))
    · exact Or.inr (Or.inr (Or.inr (Or.inr (Or.inl ⟨1, hc, hs, hl, ok1, h1⟩))))
  · exact Or.inr (Or.inr (Or.inr (Or.inr (Or.inl ⟨0, hc, hs, hl, binds_ok_zero p, h0⟩))))

/-! ## Acquisition: failure paths, release order, bindings -/

/-- C3: for every stage of `setup_gpio` at which the library can fail (chip open,
line-settings allocation, line-config allocation, each of the four line
bindings, request-config allocation, final line request), if the run reaches
that stage and it fails, then `setup_gpio` returns `NULL`, every resource created
before the failing stage has been released exactly once, nothing else has been
released, and the resource-tracking run over the log ends with no live resource. -/
theorem setup_gpio_failure_releases_all (p : Provider) (st : Stage) (h : fails_at p st) :
    (setup_gpio p).1 = none ∧
      (∀ r ∈ acquired (setup_gpio p).2, (released (setup_gpio p).2).count r = 1) ∧
      (∀ r ∈ released (setup_gpio p).2, r ∈ acquired (setup_gpio p).2) ∧
      track [] (setup_gpio p).2 = some [] := by
  cases st with
  | chip_open =>
    rw [setup_gpio_fails_chip_open p h]
    simp [acquired, released, track, Call.acquires, Call.releases]
  | line_settings_new =>
    obtain ⟨c, -, heq⟩ := setup_gpio_fails_line_settings p h
    rw [heq]
    simp [acquired, released, track, Call.acquires, Call.releases]
  | line_config_new =>
    obtain ⟨c, s, -, -, heq⟩ := setup_gpio_fails_line_config p h
    rw [heq]
    simp [acquired, released, track, Call.acquires, Call.releases]
  | add_line_settings j =>
    obtain ⟨c, s, l, -, -, -, heq⟩ := setup_gpio_fails_bind p j h
    rw [heq]
    fin_cases j <;>
      simp [acquired, released, track, Call.acquires, Call.releases, config_calls, bind_calls,
        line_numbers]
  | request_config_new =>
    obtain ⟨c, s, l, -, -, -, heq⟩ := setup_gpio_fails_request_config p h
    rw [heq]
    simp [acquired, released, track, Call.acquires, Call.releases, config_calls, bind_calls,
        line_numbers]
  | chip_request_lines =>
    obtain ⟨hc, hs, hl, hok, hq, hr⟩ := h
    obtain ⟨c, s, l, q, -, -, -, -, heq⟩ := setup_gpio_reaches_request p ⟨hc, hs, hl, hok, hq⟩
    rw [heq, hr]
    simp [acquired, released, track, Call.acquires, Call.releases, config_calls, bind_calls,
        line_numbers]

theorem setup_gpio_failure_releases_all_witness :
    fails_at provider_bind_fails (Stage.add_line_settings 2) ∧
      (setup_gpio provider_bind_fails).1 = none ∧
      (∀ r ∈ acquired (setup_gpio provider_bind_fails).2,
        (released (setup_gpio provider_bind_fails).2).count r = 1) ∧
      (∀ r ∈ released (setup_gpio provider_bind_fails).2,
        r ∈ acquired (setup_gpio provider_bind_fails).2) ∧
      track [] (setup_gpio provider_bind_fails).2 = some [] :=
  have h : fails_at provider_bind_fails (Stage.add_line_settings 2) := by
    simp [fails_at, provider_bind_fails, provider_ok, binds_ok_succ, binds_ok_zero, line_numbers]
  ⟨h, setup_gpio_failure_releases_all provider_bind_fails (Stage.add_line_settings 2) h⟩

/-- C4, counterexample: with a library in which every call succeeds, the final
line request returns handle 5, `setup_gpio` returns it, and the chip (handle 1)
has been closed by `gpiod_chip_close`. -/
theorem setup_gpio_success_closes_chip :
    provider_ok.chip_request_lines = some 5 ∧ (setup_gpio provider_ok).1 = some 5 ∧
      Call.gpiod_chip_close 1 ∈ (setup_gpio provider_ok).2 := by
  simp [setup_gpio, bind_loop, provider_ok, complete_failure, close_chip, close_line_set,
    close_line_cfg, line_numbers]

/-- C4, amended: on every run of `setup_gpio` in which the chip was opened, the
chip is closed exactly once, by the last call of the run, whether or not the
final line request succeeded; and on every run in which
`gpiod_chip_request_lines` is reached and returns a handle, `setup_gpio` returns
that handle. -/
theorem setup_gpio_always_closes_chip (p : Provider) (c : Ptr) (hc : p.chip_open = some c) :
    (setup_gpio p).2.count (Call.gpiod_chip_close c) = 1 ∧
      (setup_gpio p).2.getLast? = some (Call.gpiod_chip_close c) ∧
      (∀ r, reaches_request p → p.chip_request_lines = some r → (setup_gpio p).1 = some r) := by
  have hlast : ∀ r, reaches_request p → p.chip_request_lines = some r →
      (setup_gpio p).1 = some r := by
    intro r hr hreq
    obtain ⟨c', s, l, q, -, -, -, -, heq⟩ := setup_gpio_reaches_request p hr
    rw [heq, hreq]
  refine ⟨?_, ?_, hlast⟩
  all_goals
    rcases stage_cases p with h | h | h | h | ⟨j, h⟩ | h
    · obtain ⟨c', s, l, q, hc', -, -, -, heq⟩ := setup_gpio_reaches_request p h
      rw [hc] at hc'
      cases hc'
      rw [heq]
      simp [config_calls, bind_calls, line_numbers]
    · simp [fails_at, hc] at h
    · obtain ⟨c', hc', heq⟩ := setup_gpio_fails_line_settings p h
      rw [hc] at hc'
      cases hc'
      rw [heq]
      simp
    · obtain ⟨c', s, hc', -, heq⟩ := setup_gpio_fails_line_config p h
      rw [hc] at hc'
      cases hc'
      rw [heq]
      simp
    · obtain ⟨c', s, l, hc', -, -, heq⟩ := setup_gpio_fails_bind p j h
      rw [hc] at hc'
      cases hc'
      rw [heq]
      fin_cases j <;> simp [config_calls, bind_calls, line_numbers]
    · obtain ⟨c', s, l, hc', -, -, heq⟩ := setup_gpio_fails_request_config p h
      rw [hc] at hc'
      cases hc'
      rw [heq]
      simp [config_calls, bind_calls, line_numbers]

theorem setup_gpio_always_closes_chip_witness :
    provider_ok.chip_open = some 1 ∧
      (setup_gpio provider_ok).2.count (Call.gpiod_chip_close 1) = 1 ∧
      (setup_gpio provider_ok).2.getLast? = some (Call.gpiod_chip_close 1) ∧
      (∀ r, reaches_request provider_ok → provider_ok.chip_request_lines = some r →
        (setup_gpio provider_ok).1 = some r) :=
  ⟨rfl, setup_gpio_always_closes_chip provider_ok 1 rfl⟩

/-- C7: on every exit path of `setup_gpio`, with or without a successful final
line request, the resources acquired (the returned line request apart) are some
first `n` of chip, line settings, line config, request config, in that order, and
the releases are exactly these in reverse order of acquisition: the request
config first when it was allocated, then the line config, then the line
settings, then the chip. -/
theorem setup_gpio_release_order (p : Provider) :
    released (setup_gpio p).2 =
        ((acquired (setup_gpio p).2).filter Res.is_sub_resource).reverse ∧
      ∃ n, ((acquired (setup_gpio p).2).filter Res.is_sub_resource).map Res.kind =
          [Kind.chip, Kind.line_settings, Kind.line_config, Kind.request_config].take n ∧
        (released (setup_gpio p).2).map Res.kind =
          [Kind.request_config, Kind.line_config, Kind.line_settings, Kind.chip].drop (4 - n) := by
  rcases stage_cases p with h | h | h | h | ⟨j, h⟩ | h
  · obtain ⟨c, s, l, q, -, -, -, -, heq⟩ := setup_gpio_reaches_request p h
    rw [heq]
    refine ⟨?_, 4, ?_⟩ <;> cases p.chip_request_lines <;>
      simp [acquired, released, Call.acquires, Call.releases, config_calls, bind_calls,
        line_numbers, Res.is_sub_resource, Res.kind]
  · rw [setup_gpio_fails_chip_open p h]
    refine ⟨?_, 0, ?_⟩ <;>
      simp [acquired, released, Call.acquires, Call.releases, Res.is_sub_resource, Res.kind]
  · obtain ⟨c, -, heq⟩ := setup_gpio_fails_line_settings p h
    rw [heq]
    refine ⟨?_, 1, ?_⟩ <;>
      simp [acquired, released, Call.acquires, Call.releases, Res.is_sub_resource, Res.kind]
  · obtain ⟨c, s, -, -, heq⟩ := setup_gpio_fails_line_config p h
    rw [heq]
    refine ⟨?_, 2, ?_⟩ <;>
      simp [acquired, released, Call.acquires, Call.releases, Res.is_sub_resource, Res.kind]
  · obtain ⟨c, s, l, -, -, -, heq⟩ := setup_gpio_fails_bind p j h
    rw [heq]
    refine ⟨?_, 3, ?_⟩ <;> fin_cases j <;>
      simp [acquired, released, Call.acquires, Call.releases, config_calls, bind_calls,
        line_numbers, Res.is_sub_resource, Res.kind]
  · obtain ⟨c, s, l, -, -, -, heq⟩ := setup_gpio_fails_request_config p h
    rw [heq]
    refine ⟨?_, 3, ?_⟩ <;>
      simp [acquired, released, Call.acquires, Call.releases, config_calls, bind_calls,
        line_numbers, Res.is_sub_resource, Res.kind]

theorem provider_no_chip_fails : fails_at provider_no_chip Stage.chip_open := rfl

theorem provider_bind_fails_fails :
    fails_at provider_bind_fails (Stage.add_line_settings 2) := by
  simp [fails_at, provider_bind_fails, provider_ok, binds_ok_succ, binds_ok_zero, line_numbers]

theorem provider_no_request_fails : fails_at provider_no_request Stage.chip_request_lines := by
  simp [fails_at, provider_no_request, provider_ok, binds_ok]

/-- C8, counterexample: a failure at chip open and a failure at the final line
request, two different stages, give the same returned value. -/
theorem setup_gpio_failures_same_result :
    fails_at provider_no_chip Stage.chip_open ∧
      fails_at provider_no_request Stage.chip_request_lines ∧
      (setup_gpio provider_no_chip).1 = (setup_gpio provider_no_request).1 := by
  refine ⟨provider_no_chip_fails, provider_no_request_fails, ?_⟩
  · simp [setup_gpio, bind_loop, provider_no_chip, provider_no_request, provider_ok,
      complete_failure, close_chip, close_line_set, close_line_cfg, line_numbers]

/-- C8, amended: a failed acquisition does not report which stage failed; for
any two runs failing at any stages `setup_gpio` returns the same value, `NULL`,
and `main` exits with the same status `-1`. -/
theorem setup_gpio_failure_is_null (pa pb : Provider) (sa sb : Stage)
    (ha : fails_at pa sa) (hb : fails_at pb sb) :
    (setup_gpio pa).1 = none ∧ (setup_gpio pb).1 = none ∧
      (setup_gpio pa).1 = (setup_gpio pb).1 ∧
      (main pa).map Prod.fst = some (-1) ∧ (main pb).map Prod.fst = some (-1) := by
  have key : ∀ (p : Provider) (s : Stage), fails_at p s → (setup_gpio p).1 = none := by
    intro p s h
    cases s with
    | chip_open => rw [setup_gpio_fails_chip_open p h]
    | line_settings_new =>
      obtain ⟨c, -, heq⟩ := setup_gpio_fails_line_settings p h
      rw [heq]
    | line_config_new =>
      obtain ⟨c, s, -, -, heq⟩ := setup_gpio_fails_line_config p h
      rw [heq]
    | add_line_settings j =>
      obtain ⟨c, s, l, -, -, -, heq⟩ := setup_gpio_fails_bind p j h
      rw [heq]
    | request_config_new =>
      obtain ⟨c, s, l, -, -, -, heq⟩ := setup_gpio_fails_request_config p h
      rw [heq]
    | chip_request_lines =>
      obtain ⟨hc, hs, hl, hok, hq, hr⟩ := h
      obtain ⟨c, s, l, q, -, -, -, -, heq⟩ := setup_gpio_reaches_request p ⟨hc, hs, hl, hok, hq⟩
      rw [heq, hr]
  have hmain : ∀ p : Provider, (setup_gpio p).1 = none → (main p).map Prod.fst = some (-1) := by
    intro p hp
    unfold main main_bound
    generalize setup_gpio p = r at hp
    obtain ⟨g, log⟩ := r
    simp only at hp
    subst hp
    rfl
  have ea := key pa sa ha
  have eb := key pb sb hb
  exact ⟨ea, eb, ea.trans eb.symm, hmain pa ea, hmain pb eb⟩

theorem setup_gpio_failure_is_null_witness :
    fails_at provider_no_chip Stage.chip_open ∧
      fails_at provider_bind_fails (Stage.add_line_settings 2) ∧
      (setup_gpio provider_no_chip).1 = none ∧ (setup_gpio provider_bind_fails).1 = none ∧
      (setup_gpio provider_no_chip).1 = (setup_gpio provider_bind_fails).1 ∧
      (main provider_no_chip).map Prod.fst = some (-1) ∧
      (main provider_bind_fails).map Prod.fst = some (-1) :=
  ⟨provider_no_chip_fails, provider_bind_fails_fails,
    setup_gpio_failure_is_null provider_no_chip provider_bind_fails Stage.chip_open
      (Stage.add_line_settings 2) provider_no_chip_fails provider_bind_fails_fails⟩

/-- C9: the offsets are 27, 22, 23, 24; when the binding of index `j` is the first
to fail, the bindings attempted are exactly those of indices `0..j`, in index
order and one offset per call, and neither the request-config allocation nor the
line request is attempted; when the four bindings succeed they are 27, 22, 23, 24
in that order, one offset per call. -/
theorem setup_gpio_binds_in_order (p : Provider) :
    line_numbers = [27, 22, 23, 24] ∧
      (∀ j : Fin 4, fails_at p (Stage.add_line_settings j) →
        bind_attempts (setup_gpio p).2 = (line_numbers.take (j.val + 1)).map (fun o => (o, 1)) ∧
        (setup_gpio p).2.all (fun c => !c.is_request_stage) = true) ∧
      (p.chip_open ≠ none → p.line_settings_new ≠ none → p.line_config_new ≠ none →
        binds_ok p 4 → bind_attempts (setup_gpio p).2 = [(27, 1), (22, 1), (23, 1), (24, 1)]) := by
  refine ⟨rfl, ?_, ?_⟩
  · intro j h
    obtain ⟨c, s, l, -, -, -, heq⟩ := setup_gpio_fails_bind p j h
    rw [heq]
    fin_cases j <;>
      simp [bind_attempts, Call.is_request_stage, config_calls, bind_calls, line_numbers]
  · intro hc hs hl hok
    by_cases hq : p.request_config_new = none
    · obtain ⟨c, s, l, -, -, -, heq⟩ := setup_gpio_fails_request_config p ⟨hc, hs, hl, hok, hq⟩
      rw [heq]
      simp [bind_attempts, config_calls, bind_calls, line_numbers]
    · obtain ⟨c, s, l, q, -, -, -, -, heq⟩ := setup_gpio_reaches_request p ⟨hc, hs, hl, hok, hq⟩
      rw [heq]
      simp [bind_attempts, config_calls, bind_calls, line_numbers]

theorem setup_gpio_binds_in_order_witness :
    fails_at provider_bind_fails (Stage.add_line_settings 2) ∧
      bind_attempts (setup_gpio provider_bind_fails).2 = [(27, 1), (22, 1), (23, 1)] ∧
      (setup_gpio provider_bind_fails).2.all (fun c => !c.is_request_stage) = true ∧
      bind_attempts (setup_gpio provider_ok).2 = [(27, 1), (22, 1), (23, 1), (24, 1)] :=
  ⟨provider_bind_fails_fails,
    ((setup_gpio_binds_in_order provider_bind_fails).2.1 2 provider_bind_fails_fails).1,
    ((setup_gpio_binds_in_order provider_bind_fails).2.1 2 provider_bind_fails_fails).2,
    (setup_gpio_binds_in_order provider_ok).2.2 (by simp [provider_ok])
      (by simp [provider_ok]) (by simp [provider_ok])
      (by simp [binds_ok, provider_ok])⟩

/-! ## The driving loop -/

/-- One call of `set_position_gpio` at a loop index that fits an `int`. -/
theorem set_position_gpio_index (p : Provider) (gpio : Ptr) (i : Nat) (hi : i < 2 ^ 31)
    (log : List Call) (n : Nat) :
    set_position_gpio p gpio (size_t_to_int i) { log := log, writes := n } =
      some { log := log ++
               [Call.gpiod_line_request_set_values gpio (spec_row (i % 8)) (p.set_values n)],
             writes := n + 1 } := by
  rw [size_t_to_int_of_lt i hi]
  simp only [set_position_gpio, values_at_natCast]

/-- The loop never stops early: whatever the writes answer, it runs `rem` iterations. -/
theorem drive_loop_eq (p : Provider) (gpio : Ptr) :
    ∀ (rem i : Nat) (log : List Call), i + rem ≤ 2 ^ 31 →
      drive_loop p gpio i rem { log := log, writes := i } =
        some { log := log ++ (List.range' i rem).flatMap (step_calls p gpio),
               writes := i + rem } := by
  intro rem
  induction rem with
  | zero =>
    intro i log _
    simp [drive_loop]
  | succ rem ih =>
    intro i log h
    have hi : i < 2 ^ 31 := by omega
    have hstep := ih (i + 1)
      (log ++ [Call.gpiod_line_request_set_values gpio (spec_row (i % 8)) (p.set_values i)] ++
        [Call.usleep 2000]) (by omega)
    simp only [drive_loop, set_position_gpio_index p gpio i hi]
    rw [hstep]
    simp [List.range'_succ, step_calls, Nat.add_assoc, Nat.add_comm 1 rem]

/-- An index whose subscript falls outside the table makes the run undefined. -/
theorem drive_loop_none (p : Provider) (gpio : Ptr) :
    ∀ (rem i : Nat) (w : World) (k : Nat), i ≤ k → k < i + rem →
      values_at (size_t_to_int k) = none → drive_loop p gpio i rem w = none := by
  intro rem
  induction rem with
  | zero =>
    intro i w k h1 h2 _
    omega
  | succ rem ih =>
    intro i w k h1 h2 hk
    rcases Nat.eq_or_lt_of_le h1 with rfl | hlt
    · simp [drive_loop, set_position_gpio, hk]
    · simp only [drive_loop]
      cases hs : set_position_gpio p gpio (size_t_to_int i) w with
      | none => rfl
      | some w1 => exact ih (i + 1) _ k hlt (by omega) hk

theorem write_attempts_append (a b : List Call) :
    write_attempts (a ++ b) = write_attempts a ++ write_attempts b := by
  simp [write_attempts]

theorem write_attempts_steps (p : Provider) (gpio : Ptr) (l : List Nat) :
    write_attempts (l.flatMap (step_calls p gpio)) =
      l.map (fun k => (spec_row (k % 8), p.set_values k)) := by
  induction l with
  | nil => rfl
  | cons k l ih =>
    rw [List.flatMap_cons, write_attempts_append, ih]
    simp [write_attempts, step_calls]

theorem write_attempts_setup_gpio (p : Provider) : write_attempts (setup_gpio p).2 = [] := by
  rcases stage_cases p with h | h | h | h | ⟨j, h⟩ | h
  · obtain ⟨c, s, l, q, -, -, -, -, heq⟩ := setup_gpio_reaches_request p h
    rw [heq]
    simp [write_attempts, config_calls, bind_calls, line_numbers]
  · rw [setup_gpio_fails_chip_open p h]
    simp [write_attempts]
  · obtain ⟨c, -, heq⟩ := setup_gpio_fails_line_settings p h
    rw [heq]
    simp [write_attempts]
  · obtain ⟨c, s, -, -, heq⟩ := setup_gpio_fails_line_config p h
    rw [heq]
    simp [write_attempts]
  · obtain ⟨c, s, l, -, -, -, heq⟩ := setup_gpio_fails_bind p j h
    rw [heq]
    fin_cases j <;> simp [write_attempts, config_calls, bind_calls, line_numbers]
  · obtain ⟨c, s, l, -, -, -, heq⟩ := setup_gpio_fails_request_config p h
    rw [heq]
    simp [write_attempts, config_calls, bind_calls, line_numbers]

theorem write_attempts_steps_ok (p : Provider) (N : Nat)
    (hok : ∀ k, k < N → p.set_values k = 0) :
    (List.range N).map (fun k => (spec_row (k % 8), p.set_values k)) =
      (List.range N).map (fun k => (spec_row (k % 8), (0 : Int))) := by
  apply List.map_congr_left
  intro k hk
  rw [hok k (List.mem_range.mp hk)]

theorem steps_ok (p : Provider) (gpio : Ptr) :
    ∀ l : List Nat, (∀ k ∈ l, p.set_values k = 0) →
      l.flatMap (step_calls p gpio) =
        l.flatMap (fun k =>
          [Call.gpiod_line_request_set_values gpio (spec_row (k % 8)) 0, Call.usleep 2000]) := by
  intro l
  induction l with
  | nil => intro _; rfl
  | cons k l ih =>
    intro h
    rw [List.flatMap_cons, List.flatMap_cons, ih (fun k hk => h k (List.mem_cons_of_mem _ hk))]
    simp [step_calls, h k (List.mem_cons_self _ _)]

theorem successful_writes_length (p : Provider) (N : Nat) :
    (((List.range N).map (fun k => (spec_row (k % 8), p.set_values k))).filter
        (fun a => decide (a.2 = 0))).length =
      ((List.range N).filter (fun k => decide (p.set_values k = 0))).length := by
  rw [List.filter_map, List.length_map]
  rfl

/-- A run of `main` after a successful `setup_gpio`: the loop makes every one of
its `N` writes, whatever they answer, and the exit status is 0. -/
theorem main_bound_run (p : Provider) (gpio : Ptr) (N : Nat)
    (hN : N ≤ 2 ^ 31) (hg : (setup_gpio p).1 = some gpio) :
    ∃ log, main_bound N p = some (0, log) ∧
      write_attempts log = (List.range N).map (fun k => (spec_row (k % 8), p.set_values k)) := by
  have hrun := drive_loop_eq p gpio N 0 (setup_gpio p).2 (by omega)
  rw [Nat.zero_add, ← List.range_eq_range'] at hrun
  have hsetup := write_attempts_setup_gpio p
  refine ⟨(setup_gpio p).2 ++ (List.range N).flatMap (step_calls p gpio) ++
    [Call.gpiod_line_request_release gpio], ?_, ?_⟩
  · unfold main_bound
    generalize setup_gpio p = r at hg hrun
    obtain ⟨g, log⟩ := r
    simp only at hg
    subst hg
    simp only [hrun]
  · rw [write_attempts_append, write_attempts_append, hsetup, write_attempts_steps]
    simp [write_attempts]

/-- C5, counterexample: with a library whose third write fails, a run of the
entry point with 8 scheduled steps attempts all 8 writes, the third answering
`-1` and the five after it being made all the same; 7 writes succeed, not 2, and
the exit status is 0. -/
theorem main_third_write_fails :
    (main_bound 8 provider_third_write_fails).map Prod.fst = some 0 ∧
      (main_bound 8 provider_third_write_fails).map
        (fun r => (write_attempts r.2).map Prod.snd) = some [0, 0, -1, 0, 0, 0, 0, 0] ∧
      (main_bound 8 provider_third_write_fails).map
        (fun r => (write_attempts r.2).length) = some 8 ∧
      (main_bound 8 provider_third_write_fails).map
        (fun r => (successful_writes r.2).length) = some 7 := by
  decide

/-- C5, amended: a write failure is neither propagated nor does it abort the
remaining steps; `set_position_gpio` discards what
`gpiod_line_request_set_values` returns.  On every run in which `setup_gpio`
returned a handle, whichever writes fail, the loop with bound `N` (at most
`2 ^ 31`) attempts all `N` writes, the write of index `k` being row `k mod 8`, the
successful ones being those the library accepted, and the exit status is 0; so
it is for `main`, whose bound is 4096. -/
theorem main_ignores_write_failures (p : Provider) (gpio : Ptr) (N : Nat)
    (hN : N ≤ 2 ^ 31) (hg : (setup_gpio p).1 = some gpio) :
    (∃ log, main_bound N p = some (0, log) ∧
      write_attempts log = (List.range N).map (fun k => (spec_row (k % 8), p.set_values k)) ∧
      (write_attempts log).length = N ∧
      (successful_writes log).length =
        ((List.range N).filter (fun k => decide (p.set_values k = 0))).length) ∧
    (∃ log, main p = some (0, log) ∧ (write_attempts log).length = 4096) := by
  constructor
  · obtain ⟨log, hlog, hw⟩ := main_bound_run p gpio N hN hg
    refine ⟨log, hlog, hw, ?_, ?_⟩
    · rw [hw]
      simp
    · unfold successful_writes
      rw [hw]
      exact successful_writes_length p N
  · obtain ⟨log, hlog, hw⟩ := main_bound_run p gpio 4096 (by norm_num) hg
    refine ⟨log, hlog, ?_⟩
    rw [hw]
    simp

theorem main_ignores_write_failures_witness :
    8 ≤ 2 ^ 31 ∧ (setup_gpio provider_third_write_fails).1 = some 5 ∧
      (∃ log, main_bound 8 provider_third_write_fails = some (0, log) ∧
        write_attempts log =
          (List.range 8).map
            (fun k => (spec_row (k % 8), provider_third_write_fails.set_values k)) ∧
        (write_attempts log).length = 8 ∧
        (successful_writes log).length =
          ((List.range 8).filter
            (fun k => decide (provider_third_write_fails.set_values k = 0))).length) ∧
      (∃ log, main provider_third_write_fails = some (0, log) ∧
        (write_attempts log).length = 4096) :=
  ⟨by norm_num, by decide,
    main_ignores_write_failures provider_third_write_fails 5 8 (by norm_num) (by decide)⟩

/-- C6, counterexample: with the bound `N = 2 ^ 31 + 2` and no write failing, the
loop index `2 ^ 31 + 1` does not fit the `int` parameter of `set_position_gpio`:
it converts to `-2147483647`, whose subscript `position%8` is outside the table,
so the write of index `2 ^ 31 + 1` is not row `(2 ^ 31 + 1) mod 8` and the run has
no defined result. -/
theorem drive_loop_index_overflow :
    (∀ k, k < 2 ^ 31 + 2 → provider_ok.set_values k = 0) ∧
      size_t_to_int (2 ^ 31 + 1) = -2147483647 ∧
      values_at (size_t_to_int (2 ^ 31 + 1)) = none ∧
      drive_loop provider_ok 5 0 (2 ^ 31 + 2) { log := [], writes := 0 } = none := by
  have h : values_at (size_t_to_int (2 ^ 31 + 1)) = none := by decide
  refine ⟨fun _ _ => rfl, by decide, h, ?_⟩
  exact drive_loop_none provider_ok 5 (2 ^ 31 + 2) 0 _ (2 ^ 31 + 1) (by omega) (by omega) h

/-- C6, amended: the driving loop of the entry point, with its step bound `N` a
parameter of at most `2 ^ 31` (so that every index fits the `int` parameter of
`set_position_gpio`; `N = 4096` in `main`), started at index 0 and with no write
failing, runs to its end and appends to the log exactly, for `k = 0 .. N-1` in
order, the write of step-table row `k mod 8` followed by one delay of 2000
microseconds: `N` writes, the `k`-th being row `k mod 8`; for `N = 8` the eight
table rows in ascending order, for `N = 0` nothing. -/
theorem drive_loop_writes_table (p : Provider) (gpio : Ptr) (N : Nat) (log0 : List Call)
    (hN : N ≤ 2 ^ 31) (hok : ∀ k, k < N → p.set_values k = 0) :
    ∃ steps, drive_loop p gpio 0 N { log := log0, writes := 0 } =
        some { log := log0 ++ steps, writes := N } ∧
      steps = (List.range N).flatMap (fun k =>
        [Call.gpiod_line_request_set_values gpio (spec_row (k % 8)) 0, Call.usleep 2000]) ∧
      (write_attempts steps).length = N ∧
      (∀ k, k < N → (write_attempts steps)[k]? = some (spec_row (k % 8), 0)) ∧
      (N = 0 → steps = []) ∧
      (N = 8 → (write_attempts steps).map Prod.fst = (List.range 8).map spec_row) := by
  have hrun := drive_loop_eq p gpio N 0 log0 (by omega)
  rw [Nat.zero_add, ← List.range_eq_range'] at hrun
  have hw : write_attempts ((List.range N).flatMap (step_calls p gpio)) =
      (List.range N).map (fun k => (spec_row (k % 8), (0 : Int))) := by
    rw [write_attempts_steps, write_attempts_steps_ok p N hok]
  have hsteps := steps_ok p gpio (List.range N) (fun k hk => hok k (List.mem_range.mp hk))
  refine ⟨(List.range N).flatMap (step_calls p gpio), hrun, hsteps, ?_, ?_, ?_, ?_⟩
  · rw [hw]
    simp
  · intro k hk
    rw [hw]
    simp [hk]
  · intro h0
    subst h0
    rfl
  · intro h8
    subst h8
    rw [hw]
    decide

theorem drive_loop_writes_table_witness :
    8 ≤ 2 ^ 31 ∧ (∀ k, k < 8 → provider_ok.set_values k = 0) ∧
      ∃ steps, drive_loop provider_ok 5 0 8 { log := [], writes := 0 } =
          some { log := [] ++ steps, writes := 8 } ∧
        steps = (List.range 8).flatMap (fun k =>
          [Call.gpiod_line_request_set_values 5 (spec_row (k % 8)) 0, Call.usleep 2000]) ∧
        (write_attempts steps).length = 8 ∧
        (∀ k, k < 8 → (write_attempts steps)[k]? = some (spec_row (k % 8), 0)) ∧
        (8 = 0 → steps = []) ∧
        (8 = 8 → (write_attempts steps).map Prod.fst = (List.range 8).map spec_row) :=
  ⟨by norm_num, fun _ _ => rfl,
    drive_loop_writes_table provider_ok 5 8 [] (by norm_num) (fun _ _ => rfl)⟩

end Gpio
